import Mathlib

/-!
Verification development for the zaymazone seller/artisan onboarding flow.

Server side (`server/src/routes/verify.js`): a zod schema
(`bankVerificationSchema`) validating the body of `POST /api/verify/bank-account`,
followed by a find-or-create upsert of an `Artisan` record.

Client side (`src/services/api.ts`): `handleResponse`, `uploadFile`, and
`sellerApi.registerSeller` / `sellerApi.verifyBankAccount`.

Conventions of the embedding:
* Request bodies are well-typed records of `Option` fields: a `none` field is a
  key absent from the JSON body (zod strips unknown keys, so the client's extra
  `ifsc` key is carried but ignored by validation).
* JS strings are Lean `String`s; all data exercised here is ASCII, so
  `String.length` agrees with JS `.length`.
* `z.number()` values are modelled as `Int` (no claim exercises fractional
  numbers).
* Timestamps (`new Date()`) are a `Nat` parameter `now` threaded into the
  handler; Mongoose `_id` generation is a `Nat` parameter `newId`.
* The record store (`Artisan.findOne` / `artisan.save`) is modelled by an
  oracle answer `existing : Option Artisan` plus an explicit trace of store
  operations performed by the handler.
-/

namespace Zaymazone

/-! ## Character classes used by the JS regexes (ASCII semantics of `\d`, `[A-Z]`, `[A-Z0-9]`) -/

def isDigitChar (c : Char) : Bool := '0' ≤ c && c ≤ '9'

def isUpperChar (c : Char) : Bool := 'A' ≤ c && c ≤ 'Z'

def isUpperAlnumChar (c : Char) : Bool := isUpperChar c || isDigitChar c

/-- `/^\d{9,18}$/` from `bankVerificationSchema.accountNumber` (verify.js line 10). -/
def matchesAccountNumber (s : String) : Bool :=
  9 ≤ s.length && s.length ≤ 18 && s.data.all isDigitChar

/-- `/^[A-Z]{4}0[A-Z0-9]{6}$/` from `bankVerificationSchema.ifscCode` (verify.js line 11). -/
def matchesIfsc (s : String) : Bool :=
  match s.data with
  | [c0, c1, c2, c3, c4, c5, c6, c7, c8, c9, c10] =>
    isUpperChar c0 && isUpperChar c1 && isUpperChar c2 && isUpperChar c3 &&
    (c4 == '0') &&
    isUpperAlnumChar c5 && isUpperAlnumChar c6 && isUpperAlnumChar c7 &&
    isUpperAlnumChar c8 && isUpperAlnumChar c9 && isUpperAlnumChar c10
  | _ => false

/-! ## Request body and parsed data of `bankVerificationSchema` -/

structure LocationBody where
  city : Option String := none
  state : Option String := none
  country : Option String := none
deriving Repr, DecidableEq

structure SocialsBody where
  instagram : Option String := none
  facebook : Option String := none
  website : Option String := none
deriving Repr, DecidableEq

/-- The JSON body of `POST /api/verify/bank-account`, well typed.  A `none`
field is a key absent from the body.  `ifsc` is the extra key sent by the
client's `verifyBankAccount`; zod object parsing strips unknown keys, so no
validator looks at it. -/
structure Body where
  accountNumber : Option String := none
  ifscCode : Option String := none
  bankName : Option String := none
  name : Option String := none
  bio : Option String := none
  location : Option LocationBody := none
  specialties : Option (List String) := none
  experience : Option Int := none
  socials : Option SocialsBody := none
  documentType : Option String := none
  documentNumber : Option String := none
  ifsc : Option String := none
deriving Repr, DecidableEq

/-- One entry of `validationResult.error.errors`: a field path and a message. -/
structure ZodIssue where
  path : List String
  message : String
deriving Repr, DecidableEq

inductive DocType where
  | aadhar
  | pan
  | license
deriving Repr, DecidableEq

structure ParsedLocation where
  city : String
  state : String
  country : String
deriving Repr, DecidableEq

/-- `validationResult.data`: the output of a successful parse. -/
structure Parsed where
  accountNumber : String
  ifscCode : String
  bankName : String
  name : String
  bio : Option String
  location : ParsedLocation
  specialties : Option (List String)
  experience : Option Int
  socials : Option SocialsBody
  documentType : DocType
  documentNumber : String
deriving Repr, DecidableEq

/-- Modelled from the spec: "an optional well-formed URL for website"
(`z.string().url()`; the URL parser lives in the zod library, which is not part
of this repository).  A well-formed URL is modelled as a nonempty scheme,
`://`, and a nonempty remainder. -/
def isUrlLike (s : String) : Bool :=
  match s.splitOn "://" with
  | [scheme, rest] => !scheme.isEmpty && !rest.isEmpty
  | _ => false

/-! ### Per-field validators.  Each returns the parsed value or the zod issue
for that field; issue messages for the two regex fields are the custom
messages from the source, the rest follow zod's stock texts. -/

def eAccountNumber (b : Body) : Except ZodIssue String :=
  match b.accountNumber with
  | none => .error ⟨["accountNumber"], "Required"⟩
  | some s =>
    if matchesAccountNumber s then .ok s
    else .error ⟨["accountNumber"], "Account number must be 9-18 digits"⟩

def eIfscCode (b : Body) : Except ZodIssue String :=
  match b.ifscCode with
  | none => .error ⟨["ifscCode"], "Required"⟩
  | some s =>
    if matchesIfsc s then .ok s
    else .error ⟨["ifscCode"], "Invalid IFSC code format"⟩

def eBankName (b : Body) : Except ZodIssue String :=
  match b.bankName with
  | none => .error ⟨["bankName"], "Required"⟩
  | some s =>
    if s.length = 0 then .error ⟨["bankName"], "String must contain at least 1 character(s)"⟩
    else if 100 < s.length then .error ⟨["bankName"], "String must contain at most 100 character(s)"⟩
    else .ok s

def eName (b : Body) : Except ZodIssue String :=
  match b.name with
  | none => .error ⟨["name"], "Required"⟩
  | some s =>
    if s.length = 0 then .error ⟨["name"], "String must contain at least 1 character(s)"⟩
    else if 200 < s.length then .error ⟨["name"], "String must contain at most 200 character(s)"⟩
    else .ok s

def eBio (b : Body) : Except ZodIssue (Option String) :=
  match b.bio with
  | none => .ok none
  | some s =>
    if 1000 < s.length then .error ⟨["bio"], "String must contain at most 1000 character(s)"⟩
    else .ok (some s)

def eLocCity (l : LocationBody) : Except ZodIssue String :=
  match l.city with
  | none => .error ⟨["location", "city"], "Required"⟩
  | some s =>
    if s.length = 0 then .error ⟨["location", "city"], "String must contain at least 1 character(s)"⟩
    else if 100 < s.length then .error ⟨["location", "city"], "String must contain at most 100 character(s)"⟩
    else .ok s

def eLocState (l : LocationBody) : Except ZodIssue String :=
  match l.state with
  | none => .error ⟨["location", "state"], "Required"⟩
  | some s =>
    if s.length = 0 then .error ⟨["location", "state"], "String must contain at least 1 character(s)"⟩
    else if 100 < s.length then .error ⟨["location", "state"], "String must contain at most 100 character(s)"⟩
    else .ok s

def errsOf {α : Type} : Except ZodIssue α → List ZodIssue
  | .ok _ => []
  | .error e => [e]

/-- `location` is required; `country` defaults to `'India'` when absent. -/
def eLocation (b : Body) : Except (List ZodIssue) ParsedLocation :=
  match b.location with
  | none => .error [⟨["location"], "Required"⟩]
  | some l =>
    match eLocCity l, eLocState l with
    | .ok c, .ok s => .ok ⟨c, s, l.country.getD "India"⟩
    | rc, rs => .error (errsOf rc ++ errsOf rs)

def eSpecialties (b : Body) : Except ZodIssue (Option (List String)) :=
  .ok b.specialties

def eExperience (b : Body) : Except ZodIssue (Option Int) :=
  match b.experience with
  | none => .ok none
  | some e =>
    if 0 ≤ e then .ok (some e)
    else .error ⟨["experience"], "Number must be greater than or equal to 0"⟩

def eSocials (b : Body) : Except ZodIssue (Option SocialsBody) :=
  match b.socials with
  | none => .ok none
  | some s =>
    match s.website with
    | none => .ok (some s)
    | some w =>
      if isUrlLike w then .ok (some s)
      else .error ⟨["socials", "website"], "Invalid url"⟩

def eDocumentType (b : Body) : Except ZodIssue DocType :=
  match b.documentType with
  | none => .error ⟨["documentType"], "Required"⟩
  | some s =>
    if s = "aadhar" then .ok .aadhar
    else if s = "pan" then .ok .pan
    else if s = "license" then .ok .license
    else .error ⟨["documentType"], "Invalid enum value"⟩

def eDocumentNumber (b : Body) : Except ZodIssue String :=
  match b.documentNumber with
  | none => .error ⟨["documentNumber"], "Required"⟩
  | some s =>
    if s.length = 0 then .error ⟨["documentNumber"], "String must contain at least 1 character(s)"⟩
    else .ok s

def okOf {α : Type} : Except ZodIssue α → Option α
  | .ok a => some a
  | .error _ => none

def okOfL {α : Type} : Except (List ZodIssue) α → Option α
  | .ok a => some a
  | .error _ => none

def errsOfL {α : Type} : Except (List ZodIssue) α → List ZodIssue
  | .ok _ => []
  | .error es => es

/-- All issues of the body, in schema declaration order (zod collects every
field's issues, it does not stop at the first failure). -/
def allIssues (b : Body) : List ZodIssue :=
  errsOf (eAccountNumber b) ++ errsOf (eIfscCode b) ++ errsOf (eBankName b) ++
  errsOf (eName b) ++ errsOf (eBio b) ++ errsOfL (eLocation b) ++
  errsOf (eSpecialties b) ++ errsOf (eExperience b) ++ errsOf (eSocials b) ++
  errsOf (eDocumentType b) ++ errsOf (eDocumentNumber b)

def parsed? (b : Body) : Option Parsed := do
  let a ← okOf (eAccountNumber b)
  let i ← okOf (eIfscCode b)
  let bn ← okOf (eBankName b)
  let n ← okOf (eName b)
  let bi ← okOf (eBio b)
  let lo ← okOfL (eLocation b)
  let sp ← okOf (eSpecialties b)
  let ex ← okOf (eExperience b)
  let so ← okOf (eSocials b)
  let dt ← okOf (eDocumentType b)
  let dn ← okOf (eDocumentNumber b)
  pure ⟨a, i, bn, n, bi, lo, sp, ex, so, dt, dn⟩

/-- `bankVerificationSchema.safeParse(req.body)`: parsed data on success, the
list of field-level issues on failure. -/
def safeParse (b : Body) : Except (List ZodIssue) Parsed :=
  match parsed? b with
  | some p => .ok p
  | none => .error (allIssues b)

/-! ## The persisted Artisan record and the route handler -/

structure BankDetails where
  accountNumber : String
  ifscCode : String
  bankName : String
deriving Repr, DecidableEq

structure Verification where
  isVerified : Bool
  documentType : DocType
  documentNumber : String
  bankDetails : BankDetails
  verifiedAt : Nat
deriving Repr, DecidableEq

/-- Modelled from the spec: the persisted ArtisanRecord shape of §3 (owner
identity, profile fields, verification sub-object); the Mongoose schema file
`server/src/models/Artisan.js` is not part of this repository snapshot, only
its construction sites in `verify.js`.  `id` stands for Mongo's `_id`. -/
structure Artisan where
  id : Nat
  userId : String
  name : String
  bio : String
  location : ParsedLocation
  specialties : List String
  experience : Int
  socials : SocialsBody
  verification : Verification
deriving Repr, DecidableEq

/-- The `new Artisan({...})` construction of the create branch (verify.js
lines 66-87).  `p.bio.getD ""` models `bio || ''` (they agree on every parsed
value: an absent bio and an empty bio both store `""`); likewise
`specialties || []`, `experience || 0` (validated `experience` is ≥ 0, and `0`
maps to `0` either way) and `socials || {}`. -/
def mkNewArtisan (p : Parsed) (userId : String) (newId : Nat) (now : Nat) : Artisan :=
  { id := newId
    userId := userId
    name := p.name
    bio := p.bio.getD ""
    location := p.location
    specialties := p.specialties.getD []
    experience := p.experience.getD 0
    socials := p.socials.getD ⟨none, none, none⟩
    verification :=
      { isVerified := true
        documentType := p.documentType
        documentNumber := p.documentNumber
        bankDetails := ⟨p.accountNumber, p.ifscCode, p.bankName⟩
        verifiedAt := now } }

/-- The update branch (verify.js lines 88-109).  `name` is assigned
unconditionally; `bio`/`experience` are assigned under `!== undefined`,
`specialties`/`socials` under JS truthiness — an empty list and an empty
object are truthy, so all four reduce to "assigned iff present";
`if (location)` always fires because a validated `location` is an object.
The new `verification` spreads the old one and then overwrites every field of
the sub-document, so the whole block — `bankDetails` included — is replaced. -/
def updateArtisan (old : Artisan) (p : Parsed) (now : Nat) : Artisan :=
  { old with
    name := p.name
    bio := match p.bio with | some v => v | none => old.bio
    location := p.location
    specialties := match p.specialties with | some v => v | none => old.specialties
    experience := match p.experience with | some v => v | none => old.experience
    socials := match p.socials with | some v => v | none => old.socials
    verification :=
      { isVerified := true
        documentType := p.documentType
        documentNumber := p.documentNumber
        bankDetails := ⟨p.accountNumber, p.ifscCode, p.bankName⟩
        verifiedAt := now } }

/-- A record-store interaction performed by the handler. -/
inductive StoreOp where
  | findOne (userId : String)
  | save (a : Artisan)
deriving Repr, DecidableEq

/-- The three response shapes of the route: `res.json({success:true, message,
artisan:{id,name,isVerified}})` (HTTP 200), `res.status(400).json({error,
details})`, and `res.status(500).json({error})`. -/
inductive Resp where
  | ok (message : String) (id : Nat) (name : String) (isVerified : Bool)
  | badRequest (error : String) (details : List ZodIssue)
  | serverError (error : String)
deriving Repr, DecidableEq

/-- The `POST /api/verify/bank-account` handler (verify.js lines 36-129).
`existing` is the store's answer to `Artisan.findOne({userId})`; the returned
list is the trace of store operations in program order.  The catch branch
(store failure) is outside this model: the store oracle never throws here. -/
def handleBankAccount (b : Body) (existing : Option Artisan) (userId : String)
    (newId : Nat) (now : Nat) : Resp × List StoreOp :=
  match safeParse b with
  | .error issues => (.badRequest "Validation failed" issues, [])
  | .ok p =>
    match existing with
    | none =>
      let a := mkNewArtisan p userId newId now
      (.ok "Form validated and stored successfully" a.id a.name a.verification.isVerified,
        [.findOne userId, .save a])
    | some old =>
      let a := updateArtisan old p now
      (.ok "Form validated and stored successfully" a.id a.name a.verification.isVerified,
        [.findOne userId, .save a])

/-! ## Client side: `src/services/api.ts` -/

/-- A JSON value as sent on the wire (`JSON.stringify`); object properties
whose value is `undefined` are dropped by stringification, so an omitted field
simply does not appear in the field list. -/
inductive JVal where
  | str (s : String)
  | num (n : Int)
  | bool (b : Bool)
  | arr (elems : List JVal)
  | obj (fields : List (String × JVal))

structure Address where
  village : String
  district : String
  state : String
  pincode : String
deriving Repr, DecidableEq

structure PriceRange where
  min : String
  max : String
deriving Repr, DecidableEq

structure PickupAddress where
  sameAsMain : Bool
  address : String
deriving Repr, DecidableEq

/-- `SellerFormData` (api.ts lines 45-86).  A `File` is modelled as an opaque
`String` handle; `File | null` fields become `Option String`. -/
structure SellerFormData where
  businessName : String
  ownerName : String
  email : String
  phone : String
  address : Address
  yearsOfExperience : String
  profilePhoto : Option String
  sellerType : String
  gstNumber : String
  gstCertificate : Option String
  aadhaarNumber : String
  aadhaarProof : Option String
  panNumber : String
  categories : List String
  productDescription : String
  materials : String
  priceRange : PriceRange
  stockQuantity : String
  productPhotos : List String
  pickupAddress : PickupAddress
  dispatchTime : String
  packagingType : String
  bankName : String
  accountNumber : String
  ifscCode : String
  upiId : String
  paymentFrequency : String
  story : String
  craftVideo : Option String
deriving Repr, DecidableEq

inductive UploadKind where
  | document
  | image
  | video
deriving Repr, DecidableEq

/-- One scheduled `uploadFile` call of `registerSeller`; product photos carry
their position in `data.productPhotos`. -/
inductive UploadTask where
  | profilePhoto (f : String)
  | gstCertificate (f : String)
  | aadhaarProof (f : String)
  | productPhoto (i : Nat) (f : String)
  | craftVideo (f : String)
deriving Repr, DecidableEq

def UploadTask.file : UploadTask → String
  | .profilePhoto f => f
  | .gstCertificate f => f
  | .aadhaarProof f => f
  | .productPhoto _ f => f
  | .craftVideo f => f

/-- The `type` form field passed to `uploadFile` per call site. -/
def UploadTask.kind : UploadTask → UploadKind
  | .profilePhoto _ => .image
  | .gstCertificate _ => .document
  | .aadhaarProof _ => .document
  | .productPhoto _ _ => .image
  | .craftVideo _ => .video

/-- The uploads pushed onto `uploadPromises` (api.ts lines 92-130), in launch
order: every one is started before any of them is awaited. -/
def scheduledUploads (d : SellerFormData) : List UploadTask :=
  (match d.profilePhoto with | some f => [.profilePhoto f] | none => []) ++
  (match d.gstCertificate with | some f => [.gstCertificate f] | none => []) ++
  (match d.aadhaarProof with | some f => [.aadhaarProof f] | none => []) ++
  (d.productPhotos.enum.map fun p => .productPhoto p.1 p.2) ++
  (match d.craftVideo with | some f => [.craftVideo f] | none => [])

/-- An upload oracle: the settled outcome of each upload — `.ok url` or a
rejection carrying the thrown error's message. -/
def UploadOracle := UploadTask → Except String String

/-- `Promise.all(uploadPromises)` rejects iff some upload rejects; the model
reports the error of the first scheduled failing upload. -/
def firstUploadError (d : SellerFormData) (o : UploadOracle) : Option String :=
  ((scheduledUploads d).filterMap fun t =>
    match o t with | .error e => some e | .ok _ => none).head?

/-- The url of a settled upload; only consulted when every upload succeeded. -/
def urlOf (o : UploadOracle) (t : UploadTask) : String :=
  match o t with | .ok u => u | .error _ => ""

/-- The `fileUrls` object (`Object.assign({}, ...uploadResults)`): one key per
scheduled group, in push order; absent sources contribute no key at all. -/
def fileUrlFields (d : SellerFormData) (o : UploadOracle) : List (String × JVal) :=
  (match d.profilePhoto with
    | some f => [("profilePhotoUrl", JVal.str (urlOf o (.profilePhoto f)))]
    | none => []) ++
  (match d.gstCertificate with
    | some f => [("gstCertificateUrl", JVal.str (urlOf o (.gstCertificate f)))]
    | none => []) ++
  (match d.aadhaarProof with
    | some f => [("aadhaarProofUrl", JVal.str (urlOf o (.aadhaarProof f)))]
    | none => []) ++
  (if d.productPhotos.isEmpty then []
   else [("productPhotoUrls",
          JVal.arr (d.productPhotos.enum.map fun p => JVal.str (urlOf o (.productPhoto p.1 p.2))))]) ++
  (match d.craftVideo with
    | some f => [("craftVideoUrl", JVal.str (urlOf o (.craftVideo f)))]
    | none => [])

/-- The non-file fields of `finalData` (`{...data, ...}`) as serialized by
`JSON.stringify`: the five raw file fields (`profilePhoto`, `gstCertificate`,
`aadhaarProof`, `productPhotos`, `craftVideo`) are overwritten with
`undefined` in `finalData` and therefore dropped from the wire object. -/
def baseWireFields (d : SellerFormData) : List (String × JVal) :=
  [("businessName", .str d.businessName),
   ("ownerName", .str d.ownerName),
   ("email", .str d.email),
   ("phone", .str d.phone),
   ("address", .obj [("village", .str d.address.village),
                     ("district", .str d.address.district),
                     ("state", .str d.address.state),
                     ("pincode", .str d.address.pincode)]),
   ("yearsOfExperience", .str d.yearsOfExperience),
   ("sellerType", .str d.sellerType),
   ("gstNumber", .str d.gstNumber),
   ("aadhaarNumber", .str d.aadhaarNumber),
   ("panNumber", .str d.panNumber),
   ("categories", .arr (d.categories.map .str)),
   ("productDescription", .str d.productDescription),
   ("materials", .str d.materials),
   ("priceRange", .obj [("min", .str d.priceRange.min), ("max", .str d.priceRange.max)]),
   ("stockQuantity", .str d.stockQuantity),
   ("pickupAddress", .obj [("sameAsMain", .bool d.pickupAddress.sameAsMain),
                           ("address", .str d.pickupAddress.address)]),
   ("dispatchTime", .str d.dispatchTime),
   ("packagingType", .str d.packagingType),
   ("bankName", .str d.bankName),
   ("accountNumber", .str d.accountNumber),
   ("ifscCode", .str d.ifscCode),
   ("upiId", .str d.upiId),
   ("paymentFrequency", .str d.paymentFrequency),
   ("story", .str d.story)]

/-- `sellerApi.registerSeller` up to the registration `fetch`: if any upload
rejected, `await Promise.all` rethrows and the function exits with that error
before the registration request is built; otherwise the wire body of the
`POST /sellers/register` call is produced. -/
def registerSeller (d : SellerFormData) (o : UploadOracle) :
    Except String (List (String × JVal)) :=
  match firstUploadError d o with
  | some e => .error e
  | none => .ok (baseWireFields d ++ fileUrlFields d o)

/-- A network request issued by `registerSeller`. -/
inductive ClientRequest where
  | upload (file : String) (kind : UploadKind)
  | registerPost (body : List (String × JVal))

/-- The requests `registerSeller` issues, in order: every scheduled upload is
launched unconditionally; the registration POST is sent only when all uploads
succeeded. -/
def clientTrace (d : SellerFormData) (o : UploadOracle) : List ClientRequest :=
  ((scheduledUploads d).map fun t => .upload t.file t.kind) ++
  (match registerSeller d o with
    | .ok w => [.registerPost w]
    | .error _ => [])

/-! ### `handleResponse` (api.ts lines 23-29) -/

/-- An HTTP response as seen by the client: the `ok` flag and the parsed JSON
body — `none` when the body is absent or not parseable as JSON (in which case
`response.json()` rejects and `.catch(() => ({}))` substitutes `{}`). -/
structure HttpResponse where
  ok : Bool
  jsonBody : Option JVal

/-- Property lookup on a JSON value (`error.message`). -/
def jvalLookup (v : JVal) (key : String) : Option JVal :=
  match v with
  | .obj fields => (fields.find? fun p => p.1 == key).map Prod.snd
  | _ => none

/-- JS truthiness of a JSON value. -/
def jsTruthy : JVal → Bool
  | .str s => !s.isEmpty
  | .num n => n != 0
  | .bool b => b
  | .arr _ => true
  | .obj _ => true

/-- JS `String(v)` coercion, as applied by `new Error(v)` to a non-string
message value. -/
def jsToString : JVal → String
  | .str s => s
  | .num n => toString n
  | .bool b => if b then "true" else "false"
  | .arr l => String.intercalate "," (l.attach.map fun e => jsToString e.1)
  | .obj _ => "[object Object]"
decreasing_by
  simp only [JVal.arr.sizeOf_spec]
  have := List.sizeOf_lt_of_mem e.2
  omega

/-- The message of the error thrown for a non-ok response:
`error.message || 'Something went wrong'` where `error` is the parsed body or
`{}` when the body was absent/unparseable. -/
def thrownMessage (body : Option JVal) : String :=
  match body with
  | none => "Something went wrong"
  | some v =>
    match jvalLookup v "message" with
    | some m => if jsTruthy m then jsToString m else "Something went wrong"
    | none => "Something went wrong"

/-- `handleResponse`: non-ok responses throw exactly one error built from the
body's `message` property; ok responses produce the parsed body (an ok
response whose body fails to parse rethrows the JSON parse error). -/
def handleResponse (r : HttpResponse) : Except String JVal :=
  if r.ok then
    match r.jsonBody with
    | some v => .ok v
    | none => .error "Unexpected end of JSON input"
  else .error (thrownMessage r.jsonBody)

/-- The body of the client convenience call
`sellerApi.verifyBankAccount(ifsc, accountNumber)` (api.ts lines 166-175):
`JSON.stringify({ ifsc, accountNumber })` — the server-side schema's keys
`ifscCode`, `bankName`, `name`, `location`, `documentType`, `documentNumber`
are all absent. -/
def clientBody (ifsc accountNumber : String) : Body :=
  { accountNumber := some accountNumber, ifsc := some ifsc }

/-! ## Helper lemmas about the validator -/

/-- Number of decimal-digit characters of a string. -/
def digitCount (s : String) : Nat := (s.data.filter isDigitChar).length

lemma matchesAccountNumber_iff (s : String) :
    matchesAccountNumber s = true ↔
      (9 ≤ s.length ∧ s.length ≤ 18 ∧ ∀ c ∈ s.data, isDigitChar c = true) := by
  simp [matchesAccountNumber, List.all_eq_true, and_assoc]

lemma digitCount_eq_length (s : String) (hall : ∀ c ∈ s.data, isDigitChar c = true) :
    digitCount s = s.length := by
  unfold digitCount
  rw [List.filter_eq_self.mpr hall]
  rfl

lemma path_eAccountNumber (b : Body) :
    ∀ i ∈ errsOf (eAccountNumber b), i.path = ["accountNumber"] := by
  intro i hi
  unfold eAccountNumber at hi
  repeat' split at hi
  all_goals simp_all [errsOf]

lemma path_eIfscCode (b : Body) :
    ∀ i ∈ errsOf (eIfscCode b), i.path = ["ifscCode"] := by
  intro i hi
  unfold eIfscCode at hi
  repeat' split at hi
  all_goals simp_all [errsOf]

lemma path_eBankName (b : Body) :
    ∀ i ∈ errsOf (eBankName b), i.path = ["bankName"] := by
  intro i hi
  unfold eBankName at hi
  repeat' split at hi
  all_goals simp_all [errsOf]

lemma path_eName (b : Body) :
    ∀ i ∈ errsOf (eName b), i.path = ["name"] := by
  intro i hi
  unfold eName at hi
  repeat' split at hi
  all_goals simp_all [errsOf]

lemma path_eBio (b : Body) :
    ∀ i ∈ errsOf (eBio b), i.path = ["bio"] := by
  intro i hi
  unfold eBio at hi
  repeat' split at hi
  all_goals simp_all [errsOf]

lemma path_eLocCity (l : LocationBody) :
    ∀ i ∈ errsOf (eLocCity l), i.path = ["location", "city"] := by
  intro i hi
  unfold eLocCity at hi
  repeat' split at hi
  all_goals simp_all [errsOf]

lemma path_eLocState (l : LocationBody) :
    ∀ i ∈ errsOf (eLocState l), i.path = ["location", "state"] := by
  intro i hi
  unfold eLocState at hi
  repeat' split at hi
  all_goals simp_all [errsOf]

lemma path_eLocation (b : Body) :
    ∀ i ∈ errsOfL (eLocation b),
      i.path = ["location"] ∨ i.path = ["location", "city"] ∨ i.path = ["location", "state"] := by
  intro i hi
  unfold eLocation at hi
  split at hi
  · simp_all [errsOfL]
  · split at hi
    · simp [errsOfL] at hi
    · rename_i l _ rc rs _
      simp only [errsOfL, List.mem_append] at hi
      rcases hi with hi | hi
      · right; left; exact path_eLocCity l i hi
      · right; right; exact path_eLocState l i hi

lemma errsOf_eSpecialties (b : Body) : errsOf (eSpecialties b) = [] := rfl

lemma path_eExperience (b : Body) :
    ∀ i ∈ errsOf (eExperience b), i.path = ["experience"] := by
  intro i hi
  unfold eExperience at hi
  repeat' split at hi
  all_goals simp_all [errsOf]

lemma path_eSocials (b : Body) :
    ∀ i ∈ errsOf (eSocials b), i.path = ["socials", "website"] := by
  intro i hi
  unfold eSocials at hi
  repeat' split at hi
  all_goals simp_all [errsOf]

lemma path_eDocumentType (b : Body) :
    ∀ i ∈ errsOf (eDocumentType b), i.path = ["documentType"] := by
  intro i hi
  unfold eDocumentType at hi
  repeat' split at hi
  all_goals simp_all [errsOf]

lemma path_eDocumentNumber (b : Body) :
    ∀ i ∈ errsOf (eDocumentNumber b), i.path = ["documentNumber"] := by
  intro i hi
  unfold eDocumentNumber at hi
  repeat' split at hi
  all_goals simp_all [errsOf]

/-- Every issue of a body whose `accountNumber` field validated comes from
another field, hence never carries the `accountNumber` path. -/
lemma no_accountNumber_issue (b : Body) (h : errsOf (eAccountNumber b) = []) :
    ∀ i ∈ allIssues b, i.path ≠ ["accountNumber"] := by
  intro i hi
  unfold allIssues at hi
  rw [h] at hi
  simp only [List.nil_append, List.mem_append] at hi
  rcases hi with ((((((((hi | hi) | hi) | hi) | hi) | hi) | hi) | hi) | hi) | hi
  · simp [path_eIfscCode b i hi]
  · simp [path_eBankName b i hi]
  · simp [path_eName b i hi]
  · simp [path_eBio b i hi]
  · rcases path_eLocation b i hi with hp | hp | hp <;> simp [hp]
  · rw [errsOf_eSpecialties] at hi; simp at hi
  · simp [path_eExperience b i hi]
  · simp [path_eSocials b i hi]
  · simp [path_eDocumentType b i hi]
  · simp [path_eDocumentNumber b i hi]

/-- Every issue of a body whose `ifscCode` field validated comes from another
field, hence never carries the `ifscCode` path. -/
lemma no_ifscCode_issue (b : Body) (h : errsOf (eIfscCode b) = []) :
    ∀ i ∈ allIssues b, i.path ≠ ["ifscCode"] := by
  intro i hi
  unfold allIssues at hi
  rw [h] at hi
  simp only [List.append_nil, List.nil_append, List.mem_append] at hi
  rcases hi with ((((((((hi | hi) | hi) | hi) | hi) | hi) | hi) | hi) | hi) | hi
  · simp [path_eAccountNumber b i hi]
  · simp [path_eBankName b i hi]
  · simp [path_eName b i hi]
  · simp [path_eBio b i hi]
  · rcases path_eLocation b i hi with hp | hp | hp <;> simp [hp]
  · rw [errsOf_eSpecialties] at hi; simp at hi
  · simp [path_eExperience b i hi]
  · simp [path_eSocials b i hi]
  · simp [path_eDocumentType b i hi]
  · simp [path_eDocumentNumber b i hi]

lemma parsed?_eq_none_of_acct (b : Body) (h : okOf (eAccountNumber b) = none) :
    parsed? b = none := by
  simp [parsed?, h]

lemma parsed?_eq_none_of_ifsc (b : Body) (h : okOf (eIfscCode b) = none) :
    parsed? b = none := by
  cases ha : okOf (eAccountNumber b) <;> simp [parsed?, ha, h]

lemma safeParse_error_of_none (b : Body) (h : parsed? b = none) :
    safeParse b = .error (allIssues b) := by
  simp [safeParse, h]

lemma safeParse_error_eq (b : Body) (issues : List ZodIssue)
    (h : safeParse b = .error issues) : issues = allIssues b := by
  unfold safeParse at h
  cases hp : parsed? b <;> rw [hp] at h <;> simp at h
  exact h.symm

/-- The shape the claims describe for a routing code: length 11, the first 4
characters uppercase letters, the 5th a literal zero, the last 6 alphanumeric
characters — uppercase letters or digits, the reading of "alphanumeric" used
throughout the spec's §4.4 rules for this uppercase IFSC code. -/
def ifscSpecForm (s : String) : Bool :=
  s.length == 11 && (s.data.take 4).all isUpperChar &&
  ((s.data.drop 4).take 1 == ['0']) && (s.data.drop 5).all isUpperAlnumChar

/-- The source regex `/^[A-Z]{4}0[A-Z0-9]{6}$/` accepts exactly the strings of
the shape described by the spec. -/
lemma matchesIfsc_eq_specForm (s : String) : matchesIfsc s = ifscSpecForm s := by
  obtain ⟨l⟩ := s
  rw [Bool.eq_iff_iff]
  rcases l with _ | ⟨c0, l⟩
  · simp [matchesIfsc, ifscSpecForm, String.length]
  rcases l with _ | ⟨c1, l⟩
  · simp [matchesIfsc, ifscSpecForm, String.length]
  rcases l with _ | ⟨c2, l⟩
  · simp [matchesIfsc, ifscSpecForm, String.length]
  rcases l with _ | ⟨c3, l⟩
  · simp [matchesIfsc, ifscSpecForm, String.length]
  rcases l with _ | ⟨c4, l⟩
  · simp [matchesIfsc, ifscSpecForm, String.length]
  rcases l with _ | ⟨c5, l⟩
  · simp [matchesIfsc, ifscSpecForm, String.length]
  rcases l with _ | ⟨c6, l⟩
  · simp [matchesIfsc, ifscSpecForm, String.length]
  rcases l with _ | ⟨c7, l⟩
  · simp [matchesIfsc, ifscSpecForm, String.length]
  rcases l with _ | ⟨c8, l⟩
  · simp [matchesIfsc, ifscSpecForm, String.length]
  rcases l with _ | ⟨c9, l⟩
  · simp [matchesIfsc, ifscSpecForm, String.length]
  rcases l with _ | ⟨c10, l⟩
  · simp [matchesIfsc, ifscSpecForm, String.length]
  rcases l with _ | ⟨c11, l⟩
  · simp [matchesIfsc, ifscSpecForm, String.length]
    tauto
  · simp [matchesIfsc, ifscSpecForm, String.length]

lemma handle_eq_bad (b : Body) (existing : Option Artisan) (userId : String)
    (newId now : Nat) (issues : List ZodIssue) (h : safeParse b = .error issues) :
    handleBankAccount b existing userId newId now =
      (.badRequest "Validation failed" issues, []) := by
  simp [handleBankAccount, h]

lemma handle_eq_create (b : Body) (p : Parsed) (userId : String) (newId now : Nat)
    (h : safeParse b = .ok p) :
    handleBankAccount b none userId newId now =
      (.ok "Form validated and stored successfully" newId p.name true,
        [.findOne userId, .save (mkNewArtisan p userId newId now)]) := by
  simp [handleBankAccount, h, mkNewArtisan]

lemma handle_eq_update (b : Body) (p : Parsed) (old : Artisan) (userId : String)
    (newId now : Nat) (h : safeParse b = .ok p) :
    handleBankAccount b (some old) userId newId now =
      (.ok "Form validated and stored successfully" old.id p.name true,
        [.findOne userId, .save (updateArtisan old p now)]) := by
  simp [handleBankAccount, h, updateArtisan]

/-! ## Claims about the verification endpoint -/

/-- **C3**: an `accountNumber` string with fewer than 9 digits, more than 18
digits, or containing a non-digit character makes schema validation reject the
payload with a field-level error on `accountNumber`; a string of 9 to 18
decimal digits passes the accountNumber rule, and validation never reports an
`accountNumber` issue for it. -/
theorem accountNumber_rule (s : String) (b : Body) (hb : b.accountNumber = some s) :
    ((digitCount s < 9 ∨ 18 < digitCount s ∨ ∃ c ∈ s.data, isDigitChar c = false) →
      ∃ issues, safeParse b = .error issues ∧ ∃ i ∈ issues, i.path = ["accountNumber"]) ∧
    ((9 ≤ digitCount s ∧ digitCount s ≤ 18 ∧ ∀ c ∈ s.data, isDigitChar c = true) →
      matchesAccountNumber s = true ∧
      ∀ issues, safeParse b = .error issues → ∀ i ∈ issues, i.path ≠ ["accountNumber"]) := by
  constructor
  · intro hcase
    have hm : matchesAccountNumber s = false := by
      rw [Bool.eq_false_iff]
      intro htrue
      rw [matchesAccountNumber_iff] at htrue
      obtain ⟨h9, h18, hall⟩ := htrue
      have hdc := digitCount_eq_length s hall
      rcases hcase with hlt | hgt | ⟨c, hc, hcd⟩
      · omega
      · omega
      · have hct := hall c hc
        rw [hct] at hcd
        exact absurd hcd (by simp)
    have herr : eAccountNumber b =
        .error ⟨["accountNumber"], "Account number must be 9-18 digits"⟩ := by
      simp [eAccountNumber, hb, hm]
    have hnone : parsed? b = none := parsed?_eq_none_of_acct b (by rw [herr]; rfl)
    refine ⟨allIssues b, safeParse_error_of_none b hnone,
      ⟨⟨["accountNumber"], "Account number must be 9-18 digits"⟩, ?_, rfl⟩⟩
    unfold allIssues
    rw [herr]
    simp [errsOf]
  · rintro ⟨h9, h18, hall⟩
    have hdc := digitCount_eq_length s hall
    have hm : matchesAccountNumber s = true :=
      (matchesAccountNumber_iff s).mpr ⟨by omega, by omega, hall⟩
    refine ⟨hm, ?_⟩
    intro issues hiss i hi
    have heq := safeParse_error_eq b issues hiss
    subst heq
    exact no_accountNumber_issue b (by simp [errsOf, eAccountNumber, hb, hm]) i hi

/-- **C3** witness: `"12345"` has fewer than 9 digits and is rejected with an
`accountNumber` error; a well-formed 9-digit string passes the rule. -/
theorem accountNumber_rule_witness :
    ((digitCount "12345" < 9 ∨ 18 < digitCount "12345" ∨
        ∃ c ∈ "12345".data, isDigitChar c = false) →
      ∃ issues, safeParse { accountNumber := some "12345" } = .error issues ∧
        ∃ i ∈ issues, i.path = ["accountNumber"]) ∧
    ((9 ≤ digitCount "12345" ∧ digitCount "12345" ≤ 18 ∧
        ∀ c ∈ "12345".data, isDigitChar c = true) →
      matchesAccountNumber "12345" = true ∧
      ∀ issues, safeParse { accountNumber := some "12345" } = .error issues →
        ∀ i ∈ issues, i.path ≠ ["accountNumber"]) :=
  accountNumber_rule "12345" { accountNumber := some "12345" } rfl

/-- **C4**: an `ifscCode` string not of the form "4 uppercase letters, a
literal zero, 6 alphanumeric characters" makes schema validation reject the
payload with a field-level error on `ifscCode`; a string of that form passes
the ifscCode rule, and validation never reports an `ifscCode` issue for it. -/
theorem ifscCode_rule (s : String) (b : Body) (hb : b.ifscCode = some s) :
    (ifscSpecForm s = false →
      ∃ issues, safeParse b = .error issues ∧ ∃ i ∈ issues, i.path = ["ifscCode"]) ∧
    (ifscSpecForm s = true →
      matchesIfsc s = true ∧
      ∀ issues, safeParse b = .error issues → ∀ i ∈ issues, i.path ≠ ["ifscCode"]) := by
  constructor
  · intro hform
    have hm : matchesIfsc s = false := by rw [matchesIfsc_eq_specForm]; exact hform
    have herr : eIfscCode b = .error ⟨["ifscCode"], "Invalid IFSC code format"⟩ := by
      simp [eIfscCode, hb, hm]
    have hnone : parsed? b = none := parsed?_eq_none_of_ifsc b (by rw [herr]; rfl)
    refine ⟨allIssues b, safeParse_error_of_none b hnone,
      ⟨⟨["ifscCode"], "Invalid IFSC code format"⟩, ?_, rfl⟩⟩
    unfold allIssues
    rw [herr]
    simp [errsOf]
  · intro hform
    have hm : matchesIfsc s = true := by rw [matchesIfsc_eq_specForm]; exact hform
    refine ⟨hm, ?_⟩
    intro issues hiss i hi
    have heq := safeParse_error_eq b issues hiss
    subst heq
    exact no_ifscCode_issue b (by simp [errsOf, eIfscCode, hb, hm]) i hi

/-- **C4** witness: `"ABCD1123456"` (no literal zero in 5th position) is not
of the required shape and is rejected with an `ifscCode` error. -/
theorem ifscCode_rule_witness :
    (ifscSpecForm "ABCD1123456" = false →
      ∃ issues, safeParse { ifscCode := some "ABCD1123456" } = .error issues ∧
        ∃ i ∈ issues, i.path = ["ifscCode"]) ∧
    (ifscSpecForm "ABCD1123456" = true →
      matchesIfsc "ABCD1123456" = true ∧
      ∀ issues, safeParse { ifscCode := some "ABCD1123456" } = .error issues →
        ∀ i ∈ issues, i.path ≠ ["ifscCode"]) :=
  ifscCode_rule "ABCD1123456" { ifscCode := some "ABCD1123456" } rfl

/-- **C5**: a payload failing schema validation is answered with the 400
response carrying `error: "Validation failed"` and the structured list of
field-level issues, and the handler performs no store lookup and no write (the
store-operation trace is empty, so state is unchanged). -/
theorem validation_error_no_persistence (b : Body) (existing : Option Artisan)
    (userId : String) (newId now : Nat) (issues : List ZodIssue)
    (h : safeParse b = .error issues) :
    handleBankAccount b existing userId newId now =
      (.badRequest "Validation failed" issues, []) := by
  simp [handleBankAccount, h]

/-- **C5** witness: the empty body fails validation with the seven required
-field issues and gets the 400 response with an empty store trace. -/
theorem validation_error_no_persistence_witness :
    handleBankAccount {} none "user-1" 7 1000 =
      (.badRequest "Validation failed"
        [⟨["accountNumber"], "Required"⟩, ⟨["ifscCode"], "Required"⟩,
         ⟨["bankName"], "Required"⟩, ⟨["name"], "Required"⟩,
         ⟨["location"], "Required"⟩, ⟨["documentType"], "Required"⟩,
         ⟨["documentNumber"], "Required"⟩], []) :=
  validation_error_no_persistence {} none "user-1" 7 1000 _ rfl

/-- **C1**: on a valid payload and an existing record, the handler saves an
updated record (one lookup, one save): `name` is overwritten unconditionally;
`bio`, `specialties`, `experience` and `socials` are overwritten exactly when
present in the request (`location`, being required, is always present and
always overwritten); the verification block — `bankDetails` sub-object
included — equals the wholly new block with `isVerified = true` and the fresh
timestamp, independent of the old record's verification. -/
theorem update_branch (b : Body) (p : Parsed) (old : Artisan) (userId : String)
    (newId now : Nat) (h : safeParse b = .ok p) :
    handleBankAccount b (some old) userId newId now =
      (.ok "Form validated and stored successfully" old.id p.name true,
        [.findOne userId, .save (updateArtisan old p now)]) ∧
    (updateArtisan old p now).name = p.name ∧
    (∀ v, p.bio = some v → (updateArtisan old p now).bio = v) ∧
    (p.bio = none → (updateArtisan old p now).bio = old.bio) ∧
    (updateArtisan old p now).location = p.location ∧
    (∀ v, p.specialties = some v → (updateArtisan old p now).specialties = v) ∧
    (p.specialties = none → (updateArtisan old p now).specialties = old.specialties) ∧
    (∀ v, p.experience = some v → (updateArtisan old p now).experience = v) ∧
    (p.experience = none → (updateArtisan old p now).experience = old.experience) ∧
    (∀ v, p.socials = some v → (updateArtisan old p now).socials = v) ∧
    (p.socials = none → (updateArtisan old p now).socials = old.socials) ∧
    (updateArtisan old p now).verification =
      ⟨true, p.documentType, p.documentNumber,
        ⟨p.accountNumber, p.ifscCode, p.bankName⟩, now⟩ := by
  refine ⟨handle_eq_update b p old userId newId now h, rfl, ?_, ?_, rfl, ?_, ?_, ?_, ?_, ?_, ?_, rfl⟩
  · intro v hv; simp [updateArtisan, hv]
  · intro hv; simp [updateArtisan, hv]
  · intro v hv; simp [updateArtisan, hv]
  · intro hv; simp [updateArtisan, hv]
  · intro v hv; simp [updateArtisan, hv]
  · intro hv; simp [updateArtisan, hv]
  · intro v hv; simp [updateArtisan, hv]
  · intro hv; simp [updateArtisan, hv]

/-- **C2**: on a valid payload and no existing record, the handler creates
exactly one record (one lookup, one save of a fresh record), with absent
optional fields defaulting to empty bio, empty specialties, zero experience
and empty socials; its verification block has `isVerified = true`, the
supplied bank fields and document declaration, and the current timestamp; the
response is the success response carrying the new record's id and name. -/
theorem create_branch (b : Body) (p : Parsed) (userId : String) (newId now : Nat)
    (h : safeParse b = .ok p) :
    handleBankAccount b none userId newId now =
      (.ok "Form validated and stored successfully" newId p.name true,
        [.findOne userId, .save (mkNewArtisan p userId newId now)]) ∧
    (mkNewArtisan p userId newId now).id = newId ∧
    (mkNewArtisan p userId newId now).name = p.name ∧
    (p.bio = none → (mkNewArtisan p userId newId now).bio = "") ∧
    (p.specialties = none → (mkNewArtisan p userId newId now).specialties = []) ∧
    (p.experience = none → (mkNewArtisan p userId newId now).experience = 0) ∧
    (p.socials = none → (mkNewArtisan p userId newId now).socials = ⟨none, none, none⟩) ∧
    (mkNewArtisan p userId newId now).verification =
      ⟨true, p.documentType, p.documentNumber,
        ⟨p.accountNumber, p.ifscCode, p.bankName⟩, now⟩ := by
  refine ⟨handle_eq_create b p userId newId now h, rfl, rfl, ?_, ?_, ?_, ?_, rfl⟩
  all_goals intro heq
  all_goals simp [mkNewArtisan, heq]

/-- **C10**: a success response always reports `isVerified = true`, and every
record the handler saves — create or update branch — has
`verification.isVerified = true`. -/
theorem success_implies_verified (b : Body) (existing : Option Artisan)
    (userId : String) (newId now : Nat) (msg : String) (id : Nat) (nm : String)
    (isV : Bool)
    (h : (handleBankAccount b existing userId newId now).1 = .ok msg id nm isV) :
    isV = true ∧
    ∀ a, .save a ∈ (handleBankAccount b existing userId newId now).2 →
      a.verification.isVerified = true := by
  cases hp : safeParse b with
  | error issues =>
    rw [handle_eq_bad b existing userId newId now issues hp] at h
    simp at h
  | ok p =>
    cases existing with
    | none =>
      rw [handle_eq_create b p userId newId now hp] at h ⊢
      simp only [Resp.ok.injEq] at h
      refine ⟨h.2.2.2.symm, ?_⟩
      rintro a ha
      simp only [List.mem_cons, List.mem_singleton, reduceCtorEq, false_or,
        StoreOp.save.injEq] at ha
      rcases ha with rfl | ha
      · rfl
      · simp at ha
    | some old =>
      rw [handle_eq_update b p old userId newId now hp] at h ⊢
      simp only [Resp.ok.injEq] at h
      refine ⟨h.2.2.2.symm, ?_⟩
      rintro a ha
      simp only [List.mem_cons, List.mem_singleton, reduceCtorEq, false_or,
        StoreOp.save.injEq] at ha
      rcases ha with rfl | ha
      · rfl
      · simp at ha

/-! ### Concrete data exercising the handler (the spec's §8 example payload) -/

def exBody : Body :=
  { accountNumber := some "123456789", ifscCode := some "ABCD0123456",
    bankName := some "Test Bank", name := some "Jane",
    location := some { city := some "Pune", state := some "MH" },
    documentType := some "aadhar", documentNumber := some "X1" }

def exParsed : Parsed :=
  ⟨"123456789", "ABCD0123456", "Test Bank", "Jane", none,
    ⟨"Pune", "MH", "India"⟩, none, none, none, .aadhar, "X1"⟩

def exOld : Artisan :=
  { id := 3, userId := "user-1", name := "Old Name", bio := "old bio",
    location := ⟨"Jaipur", "RJ", "India"⟩, specialties := ["pottery"],
    experience := 4, socials := ⟨some "ig", none, none⟩,
    verification :=
      ⟨false, .pan, "OLDDOC", ⟨"999999999", "WXYZ0000001", "Old Bank"⟩, 5⟩ }

/-- **C1** witness: the §8 example payload against an existing record. -/
theorem update_branch_witness :
    handleBankAccount exBody (some exOld) "user-1" 7 1000 =
      (.ok "Form validated and stored successfully" exOld.id exParsed.name true,
        [.findOne "user-1", .save (updateArtisan exOld exParsed 1000)]) ∧
    (updateArtisan exOld exParsed 1000).name = exParsed.name ∧
    (∀ v, exParsed.bio = some v → (updateArtisan exOld exParsed 1000).bio = v) ∧
    (exParsed.bio = none → (updateArtisan exOld exParsed 1000).bio = exOld.bio) ∧
    (updateArtisan exOld exParsed 1000).location = exParsed.location ∧
    (∀ v, exParsed.specialties = some v →
      (updateArtisan exOld exParsed 1000).specialties = v) ∧
    (exParsed.specialties = none →
      (updateArtisan exOld exParsed 1000).specialties = exOld.specialties) ∧
    (∀ v, exParsed.experience = some v →
      (updateArtisan exOld exParsed 1000).experience = v) ∧
    (exParsed.experience = none →
      (updateArtisan exOld exParsed 1000).experience = exOld.experience) ∧
    (∀ v, exParsed.socials = some v → (updateArtisan exOld exParsed 1000).socials = v) ∧
    (exParsed.socials = none → (updateArtisan exOld exParsed 1000).socials = exOld.socials) ∧
    (updateArtisan exOld exParsed 1000).verification =
      ⟨true, exParsed.documentType, exParsed.documentNumber,
        ⟨exParsed.accountNumber, exParsed.ifscCode, exParsed.bankName⟩, 1000⟩ :=
  update_branch exBody exParsed exOld "user-1" 7 1000 rfl

/-- **C2** witness: the §8 example payload with no existing record. -/
theorem create_branch_witness :
    handleBankAccount exBody none "user-1" 7 1000 =
      (.ok "Form validated and stored successfully" 7 exParsed.name true,
        [.findOne "user-1", .save (mkNewArtisan exParsed "user-1" 7 1000)]) ∧
    (mkNewArtisan exParsed "user-1" 7 1000).id = 7 ∧
    (mkNewArtisan exParsed "user-1" 7 1000).name = exParsed.name ∧
    (exParsed.bio = none → (mkNewArtisan exParsed "user-1" 7 1000).bio = "") ∧
    (exParsed.specialties = none →
      (mkNewArtisan exParsed "user-1" 7 1000).specialties = []) ∧
    (exParsed.experience = none →
      (mkNewArtisan exParsed "user-1" 7 1000).experience = 0) ∧
    (exParsed.socials = none →
      (mkNewArtisan exParsed "user-1" 7 1000).socials = ⟨none, none, none⟩) ∧
    (mkNewArtisan exParsed "user-1" 7 1000).verification =
      ⟨true, exParsed.documentType, exParsed.documentNumber,
        ⟨exParsed.accountNumber, exParsed.ifscCode, exParsed.bankName⟩, 1000⟩ :=
  create_branch exBody exParsed "user-1" 7 1000 rfl

/-- **C10** witness: a concrete successful run acknowledges and saves a
verified record. -/
theorem success_implies_verified_witness :
    (true : Bool) = true ∧
    ∀ a, .save a ∈ (handleBankAccount exBody none "user-1" 7 1000).2 →
      a.verification.isVerified = true :=
  success_implies_verified exBody none "user-1" 7 1000
    "Form validated and stored successfully" 7 "Jane" true rfl

/-! ## Claims about the client -/

/-- **C6**: the body sent by the client's `verifyBankAccount(ifsc,
accountNumber)` carries only `ifsc` and `accountNumber`, so it lacks the
server schema's required `ifscCode`, `bankName`, `name`, `location`,
`documentType` and `documentNumber` keys; for every pair of argument strings
the endpoint rejects it with the 400 validation response carrying a `Required`
issue for each missing field, and no call through `verifyBankAccount` can
receive a success response. -/
theorem client_call_shape_mismatch (ifsc acct : String) (existing : Option Artisan)
    (userId : String) (newId now : Nat) :
    handleBankAccount (clientBody ifsc acct) existing userId newId now =
      (.badRequest "Validation failed" (allIssues (clientBody ifsc acct)), []) ∧
    (∀ k ∈ ([["ifscCode"], ["bankName"], ["name"], ["location"],
             ["documentType"], ["documentNumber"]] : List (List String)),
      ∃ i ∈ allIssues (clientBody ifsc acct), i.path = k ∧ i.message = "Required") ∧
    ∀ msg id nm isV,
      (handleBankAccount (clientBody ifsc acct) existing userId newId now).1 ≠
        .ok msg id nm isV := by
  have hifsc : eIfscCode (clientBody ifsc acct) = .error ⟨["ifscCode"], "Required"⟩ := rfl
  have hnone : parsed? (clientBody ifsc acct) = none :=
    parsed?_eq_none_of_ifsc _ (by rw [hifsc]; rfl)
  have hsp := safeParse_error_of_none _ hnone
  have h1 := handle_eq_bad _ existing userId newId now _ hsp
  refine ⟨h1, ?_, ?_⟩
  · intro k hk
    simp only [List.mem_cons, List.not_mem_nil, or_false] at hk
    rcases hk with rfl | rfl | rfl | rfl | rfl | rfl
    · exact ⟨⟨["ifscCode"], "Required"⟩, by
        simp [allIssues, clientBody, eIfscCode, eBankName, eName, eLocation,
          eSpecialties, eExperience, eSocials, eBio, eDocumentType,
          eDocumentNumber, errsOf, errsOfL], rfl, rfl⟩
    · exact ⟨⟨["bankName"], "Required"⟩, by
        simp [allIssues, clientBody, eIfscCode, eBankName, eName, eLocation,
          eSpecialties, eExperience, eSocials, eBio, eDocumentType,
          eDocumentNumber, errsOf, errsOfL], rfl, rfl⟩
    · exact ⟨⟨["name"], "Required"⟩, by
        simp [allIssues, clientBody, eIfscCode, eBankName, eName, eLocation,
          eSpecialties, eExperience, eSocials, eBio, eDocumentType,
          eDocumentNumber, errsOf, errsOfL], rfl, rfl⟩
    · exact ⟨⟨["location"], "Required"⟩, by
        simp [allIssues, clientBody, eIfscCode, eBankName, eName, eLocation,
          eSpecialties, eExperience, eSocials, eBio, eDocumentType,
          eDocumentNumber, errsOf, errsOfL], rfl, rfl⟩
    · exact ⟨⟨["documentType"], "Required"⟩, by
        simp [allIssues, clientBody, eIfscCode, eBankName, eName, eLocation,
          eSpecialties, eExperience, eSocials, eBio, eDocumentType,
          eDocumentNumber, errsOf, errsOfL], rfl, rfl⟩
    · exact ⟨⟨["documentNumber"], "Required"⟩, by
        simp [allIssues, clientBody, eIfscCode, eBankName, eName, eLocation,
          eSpecialties, eExperience, eSocials, eBio, eDocumentType,
          eDocumentNumber, errsOf, errsOfL], rfl, rfl⟩
  · intro msg id nm isV
    rw [h1]
    simp

/-- **C7**: if any scheduled upload of a submission fails, `registerSeller`
fails as a whole (it exits with an error) and the registration POST to
`/sellers/register` never appears in the request trace. -/
theorem upload_failure_aborts_registration (d : SellerFormData) (o : UploadOracle)
    (t : UploadTask) (e : String) (ht : t ∈ scheduledUploads d)
    (he : o t = .error e) :
    (∃ msg, registerSeller d o = .error msg) ∧
    ∀ w, ClientRequest.registerPost w ∉ clientTrace d o := by
  have hmem : e ∈ (scheduledUploads d).filterMap fun t' =>
      match o t' with | .error e' => some e' | .ok _ => none :=
    List.mem_filterMap.mpr ⟨t, ht, by rw [he]⟩
  have hne : ((scheduledUploads d).filterMap fun t' =>
      match o t' with | .error e' => some e' | .ok _ => none) ≠ [] :=
    List.ne_nil_of_mem hmem
  cases hm : firstUploadError d o with
  | none =>
    exfalso
    unfold firstUploadError at hm
    rw [List.head?_eq_none_iff] at hm
    exact hne hm
  | some m =>
    have hreg : registerSeller d o = .error m := by
      unfold registerSeller
      rw [hm]
    refine ⟨⟨m, hreg⟩, ?_⟩
    intro w hw
    unfold clientTrace at hw
    rw [hreg] at hw
    simp at hw

/-- **C8**: a submission with zero attachments schedules zero uploads, its
trace contains no upload request, and the registration body is exactly the
non-file base fields — neither the file-derived url fields nor the raw file
fields occur among its keys. -/
theorem no_attachments_no_uploads (d : SellerFormData) (o : UploadOracle)
    (h1 : d.profilePhoto = none) (h2 : d.gstCertificate = none)
    (h3 : d.aadhaarProof = none) (h4 : d.productPhotos = [])
    (h5 : d.craftVideo = none) :
    scheduledUploads d = [] ∧
    (∀ f k, ClientRequest.upload f k ∉ clientTrace d o) ∧
    registerSeller d o = .ok (baseWireFields d) ∧
    ∀ key ∈ (["profilePhotoUrl", "gstCertificateUrl", "aadhaarProofUrl",
              "productPhotoUrls", "craftVideoUrl", "profilePhoto",
              "gstCertificate", "aadhaarProof", "productPhotos",
              "craftVideo"] : List String),
      key ∉ (baseWireFields d).map Prod.fst := by
  have hsch : scheduledUploads d = [] := by
    simp [scheduledUploads, h1, h2, h3, h4, h5]
  have hfirst : firstUploadError d o = none := by
    simp [firstUploadError, hsch]
  have hurl : fileUrlFields d o = [] := by
    simp [fileUrlFields, h1, h2, h3, h4, h5]
  have hreg : registerSeller d o = .ok (baseWireFields d) := by
    unfold registerSeller
    rw [hfirst, hurl, List.append_nil]
  refine ⟨hsch, ?_, hreg, ?_⟩
  · intro f k hw
    unfold clientTrace at hw
    rw [hsch, hreg] at hw
    simp at hw
  · intro key hk
    have hmap : (baseWireFields d).map Prod.fst =
        ["businessName", "ownerName", "email", "phone", "address",
         "yearsOfExperience", "sellerType", "gstNumber", "aadhaarNumber",
         "panNumber", "categories", "productDescription", "materials",
         "priceRange", "stockQuantity", "pickupAddress", "dispatchTime",
         "packagingType", "bankName", "accountNumber", "ifscCode", "upiId",
         "paymentFrequency", "story"] := by
      simp [baseWireFields]
    rw [hmap]
    simp only [List.mem_cons, List.not_mem_nil, or_false] at hk
    rcases hk with rfl | rfl | rfl | rfl | rfl | rfl | rfl | rfl | rfl | rfl <;> decide

/-- The server-provided message of an error body, as the claim reads it: the
body's `message` property when it is a nonempty string. -/
def serverMessage (body : Option JVal) : Option String :=
  match body with
  | some v =>
    match jvalLookup v "message" with
    | some (JVal.str s) => if s.isEmpty then none else some s
    | _ => none
  | none => none

/-- **C9**: a non-success HTTP response makes the client throw exactly one
error; its message is the server-provided `message` when available, and the
generic fallback `"Something went wrong"` when the error body is absent or
unparseable. -/
theorem nonok_response_error_message (r : HttpResponse) (h : r.ok = false) :
    (∃ m, handleResponse r = .error m) ∧
    (∀ s, serverMessage r.jsonBody = some s → handleResponse r = .error s) ∧
    (r.jsonBody = none → handleResponse r = .error "Something went wrong") := by
  have hb : handleResponse r = .error (thrownMessage r.jsonBody) := by
    simp [handleResponse, h]
  refine ⟨⟨_, hb⟩, ?_, ?_⟩
  · intro s hs
    rw [hb]
    unfold serverMessage at hs
    cases hj : r.jsonBody with
    | none => rw [hj] at hs; simp at hs
    | some v =>
      rw [hj] at hs
      dsimp only at hs
      cases hm : jvalLookup v "message" with
      | none => rw [hm] at hs; simp at hs
      | some mv =>
        rw [hm] at hs
        cases mv with
        | str ms =>
          dsimp only at hs
          cases hif : ms.isEmpty with
          | false =>
            rw [hif] at hs
            simp at hs
            subst hs
            simp [thrownMessage, hm, jsTruthy, jsToString, hif]
          | true =>
            rw [hif] at hs
            simp at hs
        | num n => simp at hs
        | bool bv => simp at hs
        | arr l => simp at hs
        | obj fs => simp at hs
  · intro hn
    rw [hb, hn]
    rfl

/-! ### Concrete submissions exercising the client -/

def exSellerBase : SellerFormData :=
  { businessName := "Crafts Co", ownerName := "Asha", email := "a@b.c",
    phone := "123", address := ⟨"V", "D", "S", "000000"⟩,
    yearsOfExperience := "5", profilePhoto := none, sellerType := "artisan",
    gstNumber := "GST1", gstCertificate := none, aadhaarNumber := "1111",
    aadhaarProof := none, panNumber := "PAN1", categories := ["pottery"],
    productDescription := "pots", materials := "clay",
    priceRange := ⟨"100", "500"⟩, stockQuantity := "10", productPhotos := [],
    pickupAddress := ⟨true, ""⟩, dispatchTime := "3d", packagingType := "box",
    bankName := "Bank", accountNumber := "123456789",
    ifscCode := "ABCD0123456", upiId := "x@upi", paymentFrequency := "weekly",
    story := "story", craftVideo := none }

def exSellerWithPhoto : SellerFormData :=
  { exSellerBase with profilePhoto := some "photo.jpg" }

def failingOracle : UploadOracle := fun _ => .error "upload failed"

def okOracle : UploadOracle := fun _ => .ok "https://cdn.example.com/f"

/-- **C7** witness: a submission with one profile photo whose upload fails —
registration is never posted. -/
theorem upload_failure_aborts_registration_witness :
    (∃ msg, registerSeller exSellerWithPhoto failingOracle = .error msg) ∧
    ∀ w, ClientRequest.registerPost w ∉ clientTrace exSellerWithPhoto failingOracle :=
  upload_failure_aborts_registration exSellerWithPhoto failingOracle
    (.profilePhoto "photo.jpg") "upload failed" (by decide) rfl

/-- **C8** witness: a submission with no attachments issues no upload and its
wire body has no file-derived keys. -/
theorem no_attachments_no_uploads_witness :
    scheduledUploads exSellerBase = [] ∧
    (∀ f k, ClientRequest.upload f k ∉ clientTrace exSellerBase okOracle) ∧
    registerSeller exSellerBase okOracle = .ok (baseWireFields exSellerBase) ∧
    ∀ key ∈ (["profilePhotoUrl", "gstCertificateUrl", "aadhaarProofUrl",
              "productPhotoUrls", "craftVideoUrl", "profilePhoto",
              "gstCertificate", "aadhaarProof", "productPhotos",
              "craftVideo"] : List String),
      key ∉ (baseWireFields exSellerBase).map Prod.fst :=
  no_attachments_no_uploads exSellerBase okOracle rfl rfl rfl rfl rfl

/-- **C9** witness: a non-ok response whose body carries `message: "boom"`. -/
theorem nonok_response_error_message_witness :
    (∃ m, handleResponse ⟨false, some (.obj [("message", .str "boom")])⟩ = .error m) ∧
    (∀ s, serverMessage (HttpResponse.mk false
        (some (.obj [("message", .str "boom")]))).jsonBody = some s →
      handleResponse ⟨false, some (.obj [("message", .str "boom")])⟩ = .error s) ∧
    ((HttpResponse.mk false (some (.obj [("message", .str "boom")]))).jsonBody = none →
      handleResponse ⟨false, some (.obj [("message", .str "boom")])⟩ =
        .error "Something went wrong") :=
  nonok_response_error_message ⟨false, some (.obj [("message", .str "boom")])⟩ rfl

end Zaymazone
